import Mathlib

/-!
Verification development for `scripts/deploy.py` (Meta-core-token).

The script drives a pipeline: compile → broadcast → confirm → verify →
persist.  We shallowly embed the control flow that the specification's
claims are about:

* the confirmation-wait loop of `GitHubBSCDeployer.deploy_contract`
  (lines 145–172),
* the ad hoc bounded retry loops (lines 110–119 and 278–291),
* `GitHubBSCDeployer.verify_on_bscscan` (lines 178–248),
* `GitHubBSCDeployer.verify_deployment` (lines 272–316),
* the file writes of `GitHubBSCDeployer.save_deployment_info`
  (lines 318–359), and
* the sequencing and exception handling of `main` (lines 361–409).

External effects (RPC receipt fetches, HTTP calls, contract reads) are
embedded as explicit oracles `Nat → …` giving the outcome of the i-th
call, so each embedded function is a pure, executable Lean function.
-/

namespace Deploy

/-- A transaction receipt as used by the script: `status`, `contractAddress`,
`gasUsed`, `blockNumber`, `transactionHash`. -/
structure Receipt where
  status : Nat
  contractAddress : String
  gasUsed : Nat
  blockNumber : Nat
  transactionHash : String
deriving DecidableEq, Repr

/-- Outcome of one `get_transaction_receipt` call inside the wait loop
(line 152): `ok r` — a (truthy) receipt was returned; `absent` — no receipt
yet (in web3 this surfaces as a `TransactionNotFound` exception, caught by
the bare `except: pass` at lines 155–156, or as a falsy return); `err` — any
other transient exception, caught by the same bare `except`. -/
inductive ReceiptFetch where
  | ok (r : Receipt)
  | absent
  | err
deriving DecidableEq, Repr

/-- Terminal result of the confirmation wait in `deploy_contract`:
`confirmed r` — receipt with `status == 1` (lines 162–170); `reverted` —
receipt with any other status (`raise` at line 172); `timedOut` — the
`while`'s `else` branch (`raise` at line 160). -/
inductive ConfirmResult where
  | confirmed (r : Receipt)
  | reverted
  | timedOut
deriving DecidableEq, Repr

/-- Whether a fetch outcome is anything other than a returned receipt.
Both `absent` and `err` take the sleep-and-continue path in the loop. -/
def notOkB : ReceiptFetch → Bool
  | ReceiptFetch.ok _ => false
  | ReceiptFetch.absent => true
  | ReceiptFetch.err => true

/-- The wait loop of `deploy_contract` (lines 147–172).  Iteration `i`
polls `src i` provided `i * interval < timeout` (elapsed wall-clock before
poll `i` is `i * interval`: the loop sleeps `interval` seconds after every
poll that found no receipt).  A receipt with status 1 yields `confirmed`,
any other receipt yields `reverted`, and the loop guard failing yields
`timedOut`.  The second component of the result counts polls made.
`fuel` only bounds the recursion; `awaitConfirmation` supplies
`fuel = timeout`, which never runs out when `0 < interval` (iteration `i`
requires `i * interval < timeout`, hence `i < timeout`). -/
def confirmAux (timeout interval : Nat) (src : Nat → ReceiptFetch) :
    Nat → Nat → ConfirmResult × Nat
  | 0, i => (ConfirmResult.timedOut, i)
  | Nat.succ f, i =>
    if i * interval < timeout then
      match src i with
      | ReceiptFetch.ok r =>
          (if r.status = 1 then ConfirmResult.confirmed r else ConfirmResult.reverted, i + 1)
      | ReceiptFetch.absent => confirmAux timeout interval src f (i + 1)
      | ReceiptFetch.err => confirmAux timeout interval src f (i + 1)
    else (ConfirmResult.timedOut, i)

/-- The confirmation wait of `deploy_contract`, started at elapsed time 0. -/
def awaitConfirmation (timeout interval : Nat) (src : Nat → ReceiptFetch) :
    ConfirmResult × Nat :=
  confirmAux timeout interval src timeout 0

/-- The script's confirmation timeout: `timeout = 300` (line 148). -/
def confirmTimeout : Nat := 300

/-- The script's poll interval: `time.sleep(5)` (line 157). -/
def pollInterval : Nat := 5

/-- Branch class of a fetch outcome: `some r` when a receipt was returned,
`none` when the loop sleeps and continues (`absent` and `err` alike). -/
def fetchKind : ReceiptFetch → Option Receipt
  | ReceiptFetch.ok r => some r
  | ReceiptFetch.absent => none
  | ReceiptFetch.err => none

/-! ## Verification poller (`verify_on_bscscan`, lines 178–248) -/

/-- Final state of the verification attempt, distinguishing the branches of
`verify_on_bscscan`: `notSubmitted` — no API key (lines 180–183);
`verified` — status reply with `status == '1'` (`return True`, line 228);
`failed` — submission failure, submission transport error, or a status
reply that is neither success nor literally `Pending in queue`
(lines 231–233, 240–241, 243–244); `timedOut` — the 12-attempt status loop
exhausted while still pending (line 238 onward). -/
inductive VerifyState where
  | notSubmitted
  | verified
  | failed
  | timedOut
deriving DecidableEq, Repr

/-- Outcome of the one `requests.post` submission call (line 205): a JSON
reply with fields `status` and `result` (the GUID on success) and an
optional `message`, or a transport error (caught at line 243). -/
inductive SubmitFetch where
  | reply (status result message : String)
  | err
deriving DecidableEq, Repr

/-- Outcome of one `requests.get` status-check call (line 223): a JSON
reply with fields `status` and `result`, or a transport error (caught at
lines 234–236, which `continue`s the loop). -/
inductive StatusFetch where
  | reply (status result : String)
  | err
deriving DecidableEq, Repr

/-- Observable summary of one `verify_on_bscscan` run: the terminal branch
taken, how many submission and status-check HTTP calls were made, and the
Python function's boolean return value. -/
structure VerifyRun where
  state : VerifyState
  submitCalls : Nat
  statusCalls : Nat
  returnValue : Bool
deriving DecidableEq, Repr

/-- The status-check loop `for i in range(12)` (lines 213–236).  `rem` is
the number of iterations left, `i` the index of the next status call.
A reply with `status == '1'` returns success; otherwise a `result` equal to
the literal `Pending in queue` continues; any other reply `break`s as a
failure; a transport error `continue`s (consuming the iteration).  The
second component counts status-check calls made. -/
def statusLoop (stSrc : Nat → StatusFetch) : Nat → Nat → VerifyState × Nat
  | 0, i => (VerifyState.timedOut, i)
  | Nat.succ rem, i =>
    match stSrc i with
    | StatusFetch.err => statusLoop stSrc rem (i + 1)
    | StatusFetch.reply st res =>
      if st = "1" then (VerifyState.verified, i + 1)
      else if res = "Pending in queue" then statusLoop stSrc rem (i + 1)
      else (VerifyState.failed, i + 1)

/-- The fixed status-check attempt cap: `range(12)` (line 213). -/
def verificationCap : Nat := 12

/-- `verify_on_bscscan` (lines 178–248).  With an empty API key the function
returns immediately (the guide-printing path) having made no HTTP calls.
Otherwise it submits exactly once; only a submission reply whose `status`
is `'1'` enters the status loop.  In every branch other than returning
success inside the loop, the Python function returns `False`. -/
def verify_on_bscscan (apiKey : String) (submit : SubmitFetch)
    (stSrc : Nat → StatusFetch) : VerifyRun :=
  if apiKey = "" then
    { state := VerifyState.notSubmitted, submitCalls := 0, statusCalls := 0,
      returnValue := false }
  else
    match submit with
    | SubmitFetch.err =>
        { state := VerifyState.failed, submitCalls := 1, statusCalls := 0,
          returnValue := false }
    | SubmitFetch.reply st _res _msg =>
      if st = "1" then
        let p := statusLoop stSrc verificationCap 0
        { state := p.1, submitCalls := 1, statusCalls := p.2,
          returnValue := p.1 == VerifyState.verified }
      else
        { state := VerifyState.failed, submitCalls := 1, statusCalls := 0,
          returnValue := false }

/-- Whether a status-check outcome takes the continue path while leaving the
session pending: a reply that is not success and whose `result` is the
literal `Pending in queue`. -/
def isPendingB : StatusFetch → Bool
  | StatusFetch.reply st res => (!(st == "1")) && (res == "Pending in queue")
  | StatusFetch.err => false

/-- Branch class of a status-check outcome: `none` for the two continue
paths (pending reply, transport error), `some true` for a success reply,
`some false` for a terminal-failure reply. -/
def statusKind : StatusFetch → Option Bool
  | StatusFetch.err => none
  | StatusFetch.reply st res =>
    if st = "1" then some true
    else if res = "Pending in queue" then none
    else some false

/-! ## Bounded retry loops (lines 110–119 and 278–291) -/

/-- Whether an attempt outcome is a failure (a raised exception in the
script; errors are embedded as their message strings). -/
def isErrB {A : Type} : Except String A → Bool
  | Except.error _ => true
  | Except.ok _ => false

/-- The message of a failed attempt (and a dummy for a success). -/
def errOf {A : Type} : Except String A → String
  | Except.error e => e
  | Except.ok _ => ""

/-- The script's ad hoc retry pattern, shared by the gas-price fetch
(lines 110–119) and the contract-function check (lines 278–291):
`for attempt in range(n): try: …; break; except: if attempt == n - 1:
raise; sleep(…)`.  `op a` is the outcome of attempt `a`; the second
argument is the number of attempts remaining.  A success breaks out with
its value; a failure on the last attempt re-raises (the error propagates);
any earlier failure is discarded and the next attempt runs after a constant
sleep.  The second component of the result counts invocations of `op`.
Python's `range(0)` would leave the result variable unbound (a `NameError`);
the `0` case below is a placeholder never reached for `1 ≤ n`. -/
def retryGo {A : Type} (op : Nat → Except String A) : Nat → Nat → Except String A × Nat
  | _, 0 => (Except.error "range-empty", 0)
  | attempt, 1 => (op attempt, 1)
  | attempt, Nat.succ (Nat.succ rem) =>
    match op attempt with
    | Except.ok a => (Except.ok a, 1)
    | Except.error _ =>
      let p := retryGo op (attempt + 1) (Nat.succ rem)
      (p.1, p.2 + 1)

/-- The retry loop started at attempt 0 with `n` attempts allowed
(`max_retries = 3` at both call sites in the script). -/
def retryLoop {A : Type} (op : Nat → Except String A) (n : Nat) : Except String A × Nat :=
  retryGo op 0 n

/-! ## Specification-side RetryExecutor (spec §4.1), for comparison -/

/-- Failure classification required by the specification's `RetryPolicy`;
the script itself never classifies failures. -/
inductive FailureKind where
  | retryable
  | fatal
deriving DecidableEq, Repr

/-- The specification's `RetryPolicy` (§3): `max_attempts ≥ 1`, a constant
delay, and a failure classifier. -/
structure RetryPolicy where
  max_attempts : Nat
  delay_between_attempts : Nat
  classifyError : String → FailureKind

/-- The specification's `OperationResult<T>` (§3). -/
inductive OperationResult (A : Type) where
  | success (a : A)
  | retryableFailure (e : String)
  | fatalFailure (e : String)
deriving DecidableEq, Repr

/-- Definition following the specification's words (§4.1 RetryExecutor),
stated only so the claim about the code's loops can be compared against it:
after each failure the policy classifies the error; `fatal` aborts at once,
`retryable` retries until attempts are exhausted.  The second component
counts invocations. -/
def specRetryGo {A : Type} (pol : RetryPolicy) (op : Nat → Except String A) :
    Nat → Nat → OperationResult A × Nat
  | _, 0 => (OperationResult.retryableFailure "no attempts", 0)
  | attempt, Nat.succ rem =>
    match op attempt with
    | Except.ok a => (OperationResult.success a, 1)
    | Except.error e =>
      match pol.classifyError e with
      | FailureKind.fatal => (OperationResult.fatalFailure e, 1)
      | FailureKind.retryable =>
        if rem = 0 then (OperationResult.retryableFailure e, 1)
        else
          let p := specRetryGo pol op (attempt + 1) rem
          (p.1, p.2 + 1)

/-- The specification's `execute(operation, policy)`. -/
def specRetryExecute {A : Type} (pol : RetryPolicy) (op : Nat → Except String A) :
    OperationResult A × Nat :=
  specRetryGo pol op 0 pol.max_attempts

/-! ## Contract-function check (`verify_deployment`, lines 272–316) -/

/-- The read-only values fetched by `verify_deployment` and stored in the
deployment record's `contract_info` field. -/
structure ContractInfo where
  name : String
  symbol : String
  decimals : Nat
  totalSupply : String
  owner : String
deriving DecidableEq, Repr

/-- The fallback dict returned by `verify_deployment`'s outer `except`
(lines 308–316). -/
def placeholderInfo : ContractInfo :=
  { name := "Unknown", symbol := "Unknown", decimals := 18,
    totalSupply := "0", owner := "Unknown" }

/-- `verify_deployment` (lines 272–316): the five read-only calls of
attempt `a` are embedded as one oracle outcome `calls a`; the retry loop
makes up to 3 attempts, and the error re-raised after the third failure is
caught by the outer `except`, which returns the placeholder dict.  No error
ever propagates to the caller. -/
def verify_deployment (calls : Nat → Except String ContractInfo) : ContractInfo :=
  match (retryLoop calls 3).1 with
  | Except.ok info => info
  | Except.error _ => placeholderInfo

/-! ## Record persistence (`save_deployment_info`, lines 318–359) -/

/-- The deployment record aggregate built by `save_deployment_info`
(the fields of `deployment_data` the claims are about; URL strings and
timestamps are omitted as pure formatting of the same fields). -/
structure Record where
  contract_address : String
  transaction_hash : String
  block_number : Nat
  gas_used : Nat
  deployer_address : String
  network : String
  network_id : Nat
  contract_info : ContractInfo
  auto_verification_attempted : Bool
deriving DecidableEq, Repr

/-- The pure aggregation step of `save_deployment_info` (lines 320–345). -/
def save_record (deployer : String) (addr : String) (rcpt : Receipt)
    (info : ContractInfo) (verification_attempted : Bool) : Record :=
  { contract_address := addr,
    transaction_hash := rcpt.transactionHash,
    block_number := rcpt.blockNumber,
    gas_used := rcpt.gasUsed,
    deployer_address := deployer,
    network := "BSC Testnet",
    network_id := 97,
    contract_info := info,
    auto_verification_attempted := verification_attempted }

/-- Serialization of a record, abstracting `json.dump` (line 349): an
injective rendering of the fields; the claims depend only on the written
content being the new record's serialization. -/
def renderRecord (r : Record) : String :=
  r.contract_address ++ "|" ++ r.transaction_hash ++ "|" ++
    toString r.block_number ++ "|" ++ toString r.gas_used ++ "|" ++
    r.deployer_address ++ "|" ++ r.network ++ "|" ++ toString r.network_id ++ "|" ++
    r.contract_info.name ++ "|" ++ r.contract_info.symbol ++ "|" ++
    toString r.contract_info.decimals ++ "|" ++ r.contract_info.totalSupply ++ "|" ++
    r.contract_info.owner ++ "|" ++ toString r.auto_verification_attempted

/-- File-system operations performed by `save_deployment_info`:
`openW` — `open(path, 'w')` (truncating); `openA` — `open(path, 'a')`
(appending, present in the vocabulary to state what the code does not do);
`write` — writing `content` to the open file; `rename` — an atomic
rename (likewise never performed by the code). -/
inductive FsOp where
  | openW (path : String)
  | openA (path : String)
  | write (path content : String)
  | rename (a b : String)
deriving DecidableEq, Repr

/-- Effect of one operation on a store mapping paths to file contents. -/
def applyOp (st : String → Option String) : FsOp → (String → Option String)
  | FsOp.openW p => fun q => if q = p then some "" else st q
  | FsOp.openA p => fun q => if q = p then some ((st p).getD "") else st q
  | FsOp.write p c => fun q => if q = p then some (((st p).getD "") ++ c) else st q
  | FsOp.rename a b => fun q =>
      if q = b then st a else if q = a then none else st q

/-- Running a list of operations left to right. -/
def runOps (ops : List FsOp) (st : String → Option String) : String → Option String :=
  ops.foldl applyOp st

/-- The shape of the writes of `save_deployment_info` (lines 347–353): a
direct truncating open of `deployment_result.json` followed by the write of
`content`, then the same for `verification_source.sol` and `source`. -/
def save_ops (content source : String) : List FsOp :=
  [FsOp.openW "deployment_result.json",
   FsOp.write "deployment_result.json" content,
   FsOp.openW "verification_source.sol",
   FsOp.write "verification_source.sol" source]

/-- The operations of `save_deployment_info` for a record `r`: the content
written to `deployment_result.json` is the serialized record. -/
def save_deployment_ops (r : Record) (source : String) : List FsOp :=
  save_ops (renderRecord r) source

/-- Predicate following the specification's words (§5): a write of `final`
is an atomic replace when no open or write ever touches `final` directly
and `final` is produced by a rename (write-temp-then-rename). -/
def isAtomicReplace (ops : List FsOp) (final : String) : Bool :=
  (ops.all fun op =>
    match op with
    | FsOp.openW p => !(p == final)
    | FsOp.openA p => !(p == final)
    | FsOp.write p _ => !(p == final)
    | FsOp.rename _ _ => true) &&
  (ops.any fun op =>
    match op with
    | FsOp.rename _ dst => dst == final
    | _ => false)

/-- Whether an operation opens a file in append mode. -/
def isAppendB : FsOp → Bool
  | FsOp.openA _ => true
  | _ => false

/-- Whether an operation is a rename. -/
def isRenameB : FsOp → Bool
  | FsOp.rename _ _ => true
  | _ => false

/-! ## The pipeline (`main`, lines 361–409) -/

/-- Observable summary of one run of `main`, starting from the point where
`send_raw_transaction` has returned a transaction hash (line 142): whether
a deployment record was persisted (and which), the process exit code
(`exit(1)` in the `except` at line 409, implicit 0 on completion), whether
`verify_on_bscscan` ran at all, and how many verification HTTP calls were
made. -/
structure MainRun where
  saved : Option Record
  exitCode : Nat
  verifRan : Bool
  submitCalls : Nat
  statusCalls : Nat
deriving DecidableEq, Repr

/-- `main` from line 373 on, given that broadcast already yielded a
transaction hash.  `deploy_contract` waits for confirmation: a receipt with
status 1 returns normally; a revert or a timeout raises (lines 160, 172),
the exception propagates to `main`'s `except` (lines 405–409) and the
process exits 1 having persisted nothing.  On the success path `main` runs
`verify_deployment`, then `verify_on_bscscan`, then persists the record
built from their results and completes (exit 0). -/
def mainRun (deployer : String) (src : Nat → ReceiptFetch)
    (calls : Nat → Except String ContractInfo) (apiKey : String)
    (submit : SubmitFetch) (stSrc : Nat → StatusFetch) : MainRun :=
  match awaitConfirmation confirmTimeout pollInterval src with
  | (ConfirmResult.confirmed rcpt, _) =>
    let info := verify_deployment calls
    let vr := verify_on_bscscan apiKey submit stSrc
    { saved := some (save_record deployer rcpt.contractAddress rcpt info vr.returnValue),
      exitCode := 0,
      verifRan := true,
      submitCalls := vr.submitCalls,
      statusCalls := vr.statusCalls }
  | (ConfirmResult.reverted, _) =>
    { saved := none, exitCode := 1, verifRan := false, submitCalls := 0, statusCalls := 0 }
  | (ConfirmResult.timedOut, _) =>
    { saved := none, exitCode := 1, verifRan := false, submitCalls := 0, statusCalls := 0 }

/-! ## Helper lemmas -/

/-- If polls `i ≤ j < k` find no receipt and poll `k` returns a receipt
within the timeout, the loop stops at poll `k` having made `k + 1` polls. -/
theorem confirmAux_found (timeout interval : Nat) (src : Nat → ReceiptFetch)
    (r : Receipt) (k : Nat) :
    ∀ fuel i, 0 < interval → timeout ≤ fuel + i → i ≤ k →
      (∀ j, i ≤ j → j < k → notOkB (src j) = true) →
      src k = ReceiptFetch.ok r → k * interval < timeout →
      confirmAux timeout interval src fuel i =
        ((if r.status = 1 then ConfirmResult.confirmed r else ConfirmResult.reverted), k + 1) := by
  intro fuel
  induction fuel with
  | zero =>
    intro i hpos hfu hik hmiss hk hkt
    exfalso
    have hkk : k ≤ k * interval := by
      calc k = k * 1 := (Nat.mul_one k).symm
        _ ≤ k * interval := Nat.mul_le_mul_left k hpos
    omega
  | succ f ih =>
    intro i hpos hfu hik hmiss hk hkt
    have hguard : i * interval < timeout := by
      have : i * interval ≤ k * interval := Nat.mul_le_mul_right interval hik
      omega
    rcases Nat.eq_or_lt_of_le hik with heq | hlt
    · subst heq
      simp only [confirmAux, if_pos hguard, hk]
    · have hmi : notOkB (src i) = true := hmiss i (Nat.le_refl i) hlt
      cases hsi : src i with
      | ok r2 => rw [hsi] at hmi; simp [notOkB] at hmi
      | absent =>
        simp only [confirmAux, if_pos hguard, hsi]
        exact ih (i + 1) hpos (by omega) hlt
          (fun j h1 h2 => hmiss j (by omega) h2) hk hkt
      | err =>
        simp only [confirmAux, if_pos hguard, hsi]
        exact ih (i + 1) hpos (by omega) hlt
          (fun j h1 h2 => hmiss j (by omega) h2) hk hkt

/-- If polls `i ≤ j < k` find no receipt and already `timeout ≤ k * interval`,
the loop times out at the first poll index `n` whose scheduled time reaches
the timeout: every poll it made happened strictly before the timeout, and
none happens at or past it. -/
theorem confirmAux_timeout (timeout interval : Nat) (src : Nat → ReceiptFetch)
    (k : Nat) :
    ∀ fuel i, 0 < interval → timeout ≤ fuel + i → i ≤ k →
      timeout ≤ k * interval →
      (∀ j, i ≤ j → j < k → notOkB (src j) = true) →
      ∃ n, confirmAux timeout interval src fuel i = (ConfirmResult.timedOut, n) ∧
        i ≤ n ∧ n ≤ k ∧ timeout ≤ n * interval ∧
        (∀ j, i ≤ j → j < n → j * interval < timeout) := by
  intro fuel
  induction fuel with
  | zero =>
    intro i hpos hfu hik hkt hmiss
    refine ⟨i, ?_, Nat.le_refl i, hik, ?_, ?_⟩
    · rfl
    · have : i ≤ i * interval := by
        calc i = i * 1 := (Nat.mul_one i).symm
          _ ≤ i * interval := Nat.mul_le_mul_left i hpos
      omega
    · intro j h1 h2; omega
  | succ f ih =>
    intro i hpos hfu hik hkt hmiss
    by_cases hguard : i * interval < timeout
    · have hlt : i < k := by
        by_contra hge
        push_neg at hge
        have : k * interval ≤ i * interval := Nat.mul_le_mul_right interval hge
        omega
      have hmi : notOkB (src i) = true := hmiss i (Nat.le_refl i) hlt
      cases hsi : src i with
      | ok r2 => rw [hsi] at hmi; simp [notOkB] at hmi
      | absent =>
        obtain ⟨n, heq, h1, h2, h3, h4⟩ :=
          ih (i + 1) hpos (by omega) hlt hkt (fun j ha hb => hmiss j (by omega) hb)
        refine ⟨n, ?_, by omega, h2, h3, ?_⟩
        · simp only [confirmAux, if_pos hguard, hsi]; exact heq
        · intro j ha hb
          rcases Nat.eq_or_lt_of_le ha with rfl | hgt
          · exact hguard
          · exact h4 j hgt hb
      | err =>
        obtain ⟨n, heq, h1, h2, h3, h4⟩ :=
          ih (i + 1) hpos (by omega) hlt hkt (fun j ha hb => hmiss j (by omega) hb)
        refine ⟨n, ?_, by omega, h2, h3, ?_⟩
        · simp only [confirmAux, if_pos hguard, hsi]; exact heq
        · intro j ha hb
          rcases Nat.eq_or_lt_of_le ha with rfl | hgt
          · exact hguard
          · exact h4 j hgt hb
    · refine ⟨i, ?_, Nat.le_refl i, hik, by omega, ?_⟩
      · simp only [confirmAux, if_neg hguard]
      · intro j h1 h2; omega

/-- The wait loop's behaviour depends on each fetch outcome only through its
branch class: a transient error tick and a no-receipt tick are handled by
the same `except: pass` / sleep path. -/
theorem confirmAux_congr (timeout interval : Nat) (s1 s2 : Nat → ReceiptFetch)
    (hcls : ∀ j, fetchKind (s1 j) = fetchKind (s2 j)) :
    ∀ fuel i, confirmAux timeout interval s1 fuel i = confirmAux timeout interval s2 fuel i := by
  intro fuel
  induction fuel with
  | zero => intro i; rfl
  | succ f ih =>
    intro i
    by_cases hguard : i * interval < timeout
    · have hc := hcls i
      cases h1 : s1 i with
      | ok r =>
        rw [h1] at hc
        cases h2 : s2 i with
        | ok r2 =>
          rw [h2] at hc
          simp only [fetchKind, Option.some.injEq] at hc
          subst hc
          simp only [confirmAux, if_pos hguard, h1, h2]
        | absent => rw [h2] at hc; simp [fetchKind] at hc
        | err => rw [h2] at hc; simp [fetchKind] at hc
      | absent =>
        rw [h1] at hc
        cases h2 : s2 i with
        | ok r2 => rw [h2] at hc; simp [fetchKind] at hc
        | absent => simp only [confirmAux, if_pos hguard, h1, h2]; exact ih (i + 1)
        | err => simp only [confirmAux, if_pos hguard, h1, h2]; exact ih (i + 1)
      | err =>
        rw [h1] at hc
        cases h2 : s2 i with
        | ok r2 => rw [h2] at hc; simp [fetchKind] at hc
        | absent => simp only [confirmAux, if_pos hguard, h1, h2]; exact ih (i + 1)
        | err => simp only [confirmAux, if_pos hguard, h1, h2]; exact ih (i + 1)
    · simp only [confirmAux, if_neg hguard]

/-- Pending replies at indices `i ≤ j < k` followed by a success reply at
`k` within the remaining budget stop the loop at call `k` with `k + 1`
status calls made. -/
theorem statusLoop_verified (stSrc : Nat → StatusFetch) (res : String) (k : Nat) :
    ∀ rem i, i ≤ k → k < i + rem →
      (∀ j, i ≤ j → j < k → isPendingB (stSrc j) = true) →
      stSrc k = StatusFetch.reply "1" res →
      statusLoop stSrc rem i = (VerifyState.verified, k + 1) := by
  intro rem
  induction rem with
  | zero => intro i h1 h2 _ _; omega
  | succ rem ih =>
    intro i h1 h2 hpend hk
    rcases Nat.eq_or_lt_of_le h1 with rfl | hlt
    · simp [statusLoop, hk]
    · have hpi := hpend i (Nat.le_refl i) hlt
      cases hsi : stSrc i with
      | err => rw [hsi] at hpi; simp [isPendingB] at hpi
      | reply st r2 =>
        rw [hsi] at hpi
        simp only [isPendingB, Bool.and_eq_true, Bool.not_eq_true', beq_eq_false_iff_ne,
          ne_eq, beq_iff_eq] at hpi
        obtain ⟨hst, hr⟩ := hpi
        simp only [statusLoop, hsi, if_neg hst, hr, if_pos rfl]
        exact ih (i + 1) hlt (by omega) (fun j ha hb => hpend j (by omega) hb) hk

/-- Pending replies throughout the remaining budget exhaust it: the loop
ends `timedOut` having made exactly `rem` further status calls. -/
theorem statusLoop_allPending (stSrc : Nat → StatusFetch) :
    ∀ rem i, (∀ j, i ≤ j → j < i + rem → isPendingB (stSrc j) = true) →
      statusLoop stSrc rem i = (VerifyState.timedOut, i + rem) := by
  intro rem
  induction rem with
  | zero => intro i _; rfl
  | succ rem ih =>
    intro i hpend
    have hpi := hpend i (Nat.le_refl i) (by omega)
    cases hsi : stSrc i with
    | err => rw [hsi] at hpi; simp [isPendingB] at hpi
    | reply st r2 =>
      rw [hsi] at hpi
      simp only [isPendingB, Bool.and_eq_true, Bool.not_eq_true', beq_eq_false_iff_ne,
        ne_eq, beq_iff_eq] at hpi
      obtain ⟨hst, hr⟩ := hpi
      simp only [statusLoop, hsi, if_neg hst, hr, if_pos rfl]
      rw [ih (i + 1) (fun j ha hb => hpend j (by omega) (by omega))]
      simp only [if_true, Prod.mk.injEq]
      exact ⟨trivial, by omega⟩

/-- The loop never makes more status calls than its remaining budget. -/
theorem statusLoop_le (stSrc : Nat → StatusFetch) :
    ∀ rem i, (statusLoop stSrc rem i).2 ≤ i + rem := by
  intro rem
  induction rem with
  | zero => intro i; simp [statusLoop]
  | succ rem ih =>
    intro i
    cases hsi : stSrc i with
    | err =>
      simp only [statusLoop, hsi]
      have := ih (i + 1)
      omega
    | reply st res =>
      simp only [statusLoop, hsi]
      by_cases hst : st = "1"
      · simp only [if_pos hst]; omega
      · simp only [if_neg hst]
        by_cases hres : res = "Pending in queue"
        · simp only [if_pos hres]
          have := ih (i + 1)
          omega
        · simp only [if_neg hres]; omega

/-- The status loop depends on each status outcome only through its branch
class: a transport error and a pending reply are both one consumed
iteration followed by the next check. -/
theorem statusLoop_congr (s1 s2 : Nat → StatusFetch)
    (hcls : ∀ j, statusKind (s1 j) = statusKind (s2 j)) :
    ∀ rem i, statusLoop s1 rem i = statusLoop s2 rem i := by
  intro rem
  induction rem with
  | zero => intro i; rfl
  | succ rem ih =>
    intro i
    have hc := hcls i
    cases h1 : s1 i with
    | err =>
      rw [h1] at hc
      cases h2 : s2 i with
      | err => simp only [statusLoop, h1, h2]; exact ih (i + 1)
      | reply st res =>
        rw [h2] at hc
        simp only [statusKind] at hc
        by_cases hst : st = "1"
        · rw [if_pos hst] at hc; exact absurd hc.symm (by simp)
        · rw [if_neg hst] at hc
          by_cases hres : res = "Pending in queue"
          · simp only [statusLoop, h1, h2, if_neg hst, hres, if_pos rfl]
            exact ih (i + 1)
          · rw [if_neg hres] at hc; exact absurd hc.symm (by simp)
    | reply st res =>
      rw [h1] at hc
      cases h2 : s2 i with
      | err =>
        rw [h2] at hc
        simp only [statusKind] at hc
        by_cases hst : st = "1"
        · rw [if_pos hst] at hc; exact absurd hc (by simp)
        · rw [if_neg hst] at hc
          by_cases hres : res = "Pending in queue"
          · simp only [statusLoop, h1, h2, if_neg hst, hres, if_pos rfl]
            exact ih (i + 1)
          · rw [if_neg hres] at hc; exact absurd hc (by simp)
      | reply st2 res2 =>
        rw [h2] at hc
        simp only [statusKind] at hc
        by_cases hst : st = "1"
        · by_cases hst2 : st2 = "1"
          · simp only [statusLoop, h1, h2, if_pos hst, if_pos hst2]
          · rw [if_pos hst, if_neg hst2] at hc
            by_cases hres2 : res2 = "Pending in queue"
            · rw [if_pos hres2] at hc; exact absurd hc (by simp)
            · rw [if_neg hres2] at hc; exact absurd hc (by simp)
        · rw [if_neg hst] at hc
          by_cases hres : res = "Pending in queue"
          · rw [if_pos hres] at hc
            by_cases hst2 : st2 = "1"
            · rw [if_pos hst2] at hc; exact absurd hc (by simp)
            · rw [if_neg hst2] at hc
              by_cases hres2 : res2 = "Pending in queue"
              · simp only [statusLoop, h1, h2, if_neg hst, if_neg hst2, hres, hres2,
                  if_pos rfl]
                exact ih (i + 1)
              · rw [if_neg hres2] at hc; exact absurd hc (by simp)
          · rw [if_neg hres] at hc
            by_cases hst2 : st2 = "1"
            · rw [if_pos hst2] at hc; exact absurd hc (by simp)
            · rw [if_neg hst2] at hc
              by_cases hres2 : res2 = "Pending in queue"
              · rw [if_pos hres2] at hc; exact absurd hc (by simp)
              · simp only [statusLoop, h1, h2, if_neg hst, if_neg hst2, if_neg hres,
                  if_neg hres2]

/-- If every attempt in the window fails, the loop runs the whole window
and re-raises the error of the final attempt. -/
theorem retryGo_allErr {A : Type} (op : Nat → Except String A) :
    ∀ n a, 0 < n → (∀ i, a ≤ i → i < a + n → isErrB (op i) = true) →
      retryGo op a n = (Except.error (errOf (op (a + n - 1))), n) := by
  intro n
  induction n with
  | zero => intro a h0 _; omega
  | succ m ih =>
    intro a _ hfail
    cases m with
    | zero =>
      have hfa := hfail a (Nat.le_refl a) (by omega)
      cases hop : op a with
      | ok v => rw [hop] at hfa; simp [isErrB] at hfa
      | error e => simp [retryGo, hop, errOf]
    | succ m2 =>
      have hfa := hfail a (Nat.le_refl a) (by omega)
      cases hop : op a with
      | ok v => rw [hop] at hfa; simp [isErrB] at hfa
      | error e =>
        have hrec := ih (a + 1) (by omega)
          (fun i h1 h2 => hfail i (by omega) (by omega))
        simp only [retryGo, hop, hrec]
        have harg : a + 1 + (m2 + 1) - 1 = a + (m2 + 1 + 1) - 1 := by omega
        rw [harg]

/-- Running the save operations with an arbitrary content string: the two
files end up holding exactly the written content regardless of the prior
store, the operations use no append mode and no rename, and they are not an
atomic replace of `deployment_result.json`. -/
theorem save_ops_spec (content source : String) (st : String → Option String) :
    runOps (save_ops content source) st "deployment_result.json" = some content ∧
    runOps (save_ops content source) st "verification_source.sol" = some source ∧
    (save_ops content source).all (fun op => !(isAppendB op)) = true ∧
    (save_ops content source).all (fun op => !(isRenameB op)) = true ∧
    isAtomicReplace (save_ops content source) "deployment_result.json" = false := by
  refine ⟨?_, ?_, ?_, ?_, ?_⟩ <;>
    simp [runOps, save_ops, applyOp, isAppendB, isRenameB, isAtomicReplace]

/-! ## Claim theorems -/

/-- C5: with a receipt source that is absent for the first `k` polls and
then returns a success receipt, the wait returns `Confirmed` after exactly
`k + 1` poll calls provided `k` poll intervals fit within the timeout
(`k * interval < timeout`); if `k` polls already reach the timeout
(`timeout ≤ k * interval`), the wait returns `TimedOut` after at most `k`
polls, every poll it made happened strictly before the timeout, and no
polling occurs at or after the timeout. -/
theorem C5_confirmation_polls (timeout interval k : Nat) (src : Nat → ReceiptFetch)
    (r : Receipt) (hpos : 0 < interval)
    (habs : ∀ j, j < k → notOkB (src j) = true)
    (hok : src k = ReceiptFetch.ok r) (hstat : r.status = 1) :
    (k * interval < timeout →
      awaitConfirmation timeout interval src = (ConfirmResult.confirmed r, k + 1)) ∧
    (timeout ≤ k * interval →
      ∃ n, awaitConfirmation timeout interval src = (ConfirmResult.timedOut, n) ∧
        n ≤ k ∧ timeout ≤ n * interval ∧ ∀ j, j < n → j * interval < timeout) := by
  constructor
  · intro hfit
    have h := confirmAux_found timeout interval src r k timeout 0 hpos (by omega)
      (by omega) (fun j _ hj => habs j hj) hok hfit
    rw [awaitConfirmation, h, if_pos hstat]
  · intro hex
    obtain ⟨n, heq, _, h2, h3, h4⟩ := confirmAux_timeout timeout interval src k timeout 0
      hpos (by omega) (by omega) hex (fun j _ hj => habs j hj)
    exact ⟨n, heq, h2, h3, fun j hj => h4 j (by omega) hj⟩

/-- C5 witness: a concrete absent-absent-success source confirms on the
third poll when the timeout allows it, and times out when it does not. -/
theorem C5_confirmation_polls_witness :
    (awaitConfirmation 300 5
        (fun j => if j < 2 then ReceiptFetch.absent
          else ReceiptFetch.ok ⟨1, "0xC", 21000, 100, "0xT"⟩) =
      (ConfirmResult.confirmed ⟨1, "0xC", 21000, 100, "0xT"⟩, 3)) ∧
    (∃ n, awaitConfirmation 10 5
        (fun j => if j < 2 then ReceiptFetch.absent
          else ReceiptFetch.ok ⟨1, "0xC", 21000, 100, "0xT"⟩) =
        (ConfirmResult.timedOut, n) ∧
      n ≤ 2 ∧ 10 ≤ n * 5 ∧ ∀ j, j < n → j * 5 < 10) := by
  constructor
  · exact (C5_confirmation_polls 300 5 2 _ ⟨1, "0xC", 21000, 100, "0xT"⟩
      (by decide) (by decide) rfl rfl).1 (by decide)
  · exact (C5_confirmation_polls 10 5 2 _ ⟨1, "0xC", 21000, 100, "0xT"⟩
      (by decide) (by decide) rfl rfl).2 (by decide)

/-- C6: a receipt fetch that fails transiently at poll `i` is handled by
the same sleep-and-continue path as a poll that found no receipt: the whole
run (terminal result and number of polls, hence wall-clock spent) is
unchanged if that error tick is replaced by a normal no-receipt tick.  In
particular the error is not treated as a terminal absence — the wait
continues and the failed fetch consumes exactly one poll interval. -/
theorem C6_transient_fetch_error (timeout interval i : Nat) (src : Nat → ReceiptFetch)
    (h : src i = ReceiptFetch.err) :
    awaitConfirmation timeout interval (Function.update src i ReceiptFetch.absent) =
      awaitConfirmation timeout interval src := by
  have hcls : ∀ j, fetchKind (Function.update src i ReceiptFetch.absent j) = fetchKind (src j) := by
    intro j
    by_cases hj : j = i
    · subst hj
      rw [Function.update_same, h]
      rfl
    · rw [Function.update_noteq hj]
  exact confirmAux_congr timeout interval _ src hcls timeout 0

/-- C6 witness: a run whose first fetch errors equals the run whose first
fetch merely found no receipt. -/
theorem C6_transient_fetch_error_witness :
    awaitConfirmation 20 5
        (Function.update
          (fun j => if j = 0 then ReceiptFetch.err
            else ReceiptFetch.ok ⟨1, "0xC", 21000, 100, "0xT"⟩)
          0 ReceiptFetch.absent) =
      awaitConfirmation 20 5
        (fun j => if j = 0 then ReceiptFetch.err
          else ReceiptFetch.ok ⟨1, "0xC", 21000, 100, "0xT"⟩) :=
  C6_transient_fetch_error 20 5 0 _ rfl

/-- C7: in the status-polling phase of `verify_on_bscscan`, pending replies
followed by a success reply at index `k < 12` end in `verified` after
`k + 1` status checks; all-pending replies through the cap end in
`timedOut` after exactly the cap's 12 checks; the number of status checks
never exceeds the cap; and a transport error during a status check consumes
an attempt exactly like a pending reply (replacing it by a pending reply
leaves the run unchanged), so it grants no extra attempts. -/
theorem C7_status_polling (stSrc : Nat → StatusFetch) (k i : Nat) (res : String) :
    ((∀ j, j < k → isPendingB (stSrc j) = true) →
      stSrc k = StatusFetch.reply "1" res → k < verificationCap →
      statusLoop stSrc verificationCap 0 = (VerifyState.verified, k + 1)) ∧
    ((∀ j, j < verificationCap → isPendingB (stSrc j) = true) →
      statusLoop stSrc verificationCap 0 = (VerifyState.timedOut, verificationCap)) ∧
    (statusLoop stSrc verificationCap 0).2 ≤ verificationCap ∧
    (stSrc i = StatusFetch.err →
      statusLoop (Function.update stSrc i (StatusFetch.reply "0" "Pending in queue"))
          verificationCap 0 = statusLoop stSrc verificationCap 0) := by
  refine ⟨?_, ?_, ?_, ?_⟩
  · intro hpend hk hcap
    exact statusLoop_verified stSrc res k verificationCap 0 (by omega) (by omega)
      (fun j _ hj => hpend j hj) hk
  · intro hpend
    have h := statusLoop_allPending stSrc verificationCap 0
      (fun j _ hj => hpend j (by omega))
    simpa using h
  · have h := statusLoop_le stSrc verificationCap 0
    simpa using h
  · intro herr
    apply statusLoop_congr
    intro j
    by_cases hj : j = i
    · subst hj
      rw [Function.update_same, herr]
      rfl
    · rw [Function.update_noteq hj]

/-- C7 witness: two pending replies then a success reply verifies on the
third check; twelve pending replies time out with twelve checks; an error
tick behaves as a pending tick. -/
theorem C7_status_polling_witness :
    (statusLoop (fun j => if j < 2 then StatusFetch.reply "0" "Pending in queue"
        else StatusFetch.reply "1" "Pass") verificationCap 0 = (VerifyState.verified, 3)) ∧
    (statusLoop (fun _ => StatusFetch.reply "0" "Pending in queue") verificationCap 0 =
      (VerifyState.timedOut, verificationCap)) ∧
    (statusLoop (Function.update (fun _ => StatusFetch.err) 0
        (StatusFetch.reply "0" "Pending in queue")) verificationCap 0 =
      statusLoop (fun _ => StatusFetch.err) verificationCap 0) := by
  refine ⟨?_, ?_, ?_⟩
  · exact (C7_status_polling
      (fun j => if j < 2 then StatusFetch.reply "0" "Pending in queue"
        else StatusFetch.reply "1" "Pass") 2 0 "Pass").1 (by decide) rfl (by decide)
  · exact (C7_status_polling (fun _ => StatusFetch.reply "0" "Pending in queue")
      0 0 "Pass").2.1 (by decide)
  · exact (C7_status_polling (fun _ => StatusFetch.err) 0 0 "Pass").2.2.2 rfl

/-- C8: a submission reply whose status is not success ends the run in the
`failed` state with the submission made exactly once (never retried) and
zero status-check calls afterward, and the function returns `False`. -/
theorem C8_submission_failure (apiKey st res msg : String) (stSrc : Nat → StatusFetch)
    (hkey : apiKey ≠ "") (hst : st ≠ "1") :
    verify_on_bscscan apiKey (SubmitFetch.reply st res msg) stSrc =
      { state := VerifyState.failed, submitCalls := 1, statusCalls := 0,
        returnValue := false } := by
  simp [verify_on_bscscan, hkey, hst]

/-- C8 witness: a concrete rejected submission. -/
theorem C8_submission_failure_witness :
    verify_on_bscscan "KEY" (SubmitFetch.reply "0" "" "NOTOK") (fun _ => StatusFetch.err) =
      { state := VerifyState.failed, submitCalls := 1, statusCalls := 0,
        returnValue := false } :=
  C8_submission_failure "KEY" "0" "" "NOTOK" (fun _ => StatusFetch.err)
    (by decide) (by decide)

/-- C9: with no API key the verification function returns immediately in
the `notSubmitted` state having made zero submission calls and zero
status-check calls. -/
theorem C9_no_api_key (submit : SubmitFetch) (stSrc : Nat → StatusFetch) :
    verify_on_bscscan "" submit stSrc =
      { state := VerifyState.notSubmitted, submitCalls := 0, statusCalls := 0,
        returnValue := false } := rfl

/-- C4 counterexample: the script's retry loop performs no failure
classification.  With an error that any policy classifies `fatal` (the
spec's §4.1 executor then invokes the operation exactly once), the loop
still invokes the always-failing operation 3 times, so the claim's
Fatal half is false of the code. -/
theorem C4_counterexample :
    (RetryPolicy.mk 3 2 (fun _ => FailureKind.fatal)).classifyError "RpcError: permanent" =
      FailureKind.fatal ∧
    (retryLoop (fun _ => (Except.error "RpcError: permanent" : Except String ContractInfo))
      3).2 = 3 ∧
    (specRetryExecute (RetryPolicy.mk 3 2 (fun _ => FailureKind.fatal))
      (fun _ => (Except.error "RpcError: permanent" : Except String ContractInfo))).2 = 1 ∧
    (3 : Nat) ≠ 1 :=
  ⟨rfl, rfl, rfl, by decide⟩

/-- C4 (amended): for the script's retry loop with `n ≥ 1` attempts, an
operation that fails on every attempt is invoked exactly `n` times and the
error of the last attempt is the one re-raised; the invocation count is `n`
for every always-failing operation regardless of the error, because the
loop classifies nothing as fatal and so never aborts after one call. -/
theorem C4_retry_exhaustion {A : Type} (op : Nat → Except String A) (n : Nat)
    (h1 : 0 < n) (h2 : ∀ i, i < n → isErrB (op i) = true) :
    retryLoop op n = (Except.error (errOf (op (n - 1))), n) := by
  have h := retryGo_allErr op n 0 h1 (fun i _ hi => h2 i (by omega))
  simpa [retryLoop] using h

/-- C4 witness: a concrete always-failing operation under the script's
3-attempt loop. -/
theorem C4_retry_exhaustion_witness :
    retryLoop (fun _ => (Except.error "boom" : Except String ContractInfo)) 3 =
      (Except.error "boom", 3) := by
  have h := C4_retry_exhaustion (fun _ => (Except.error "boom" : Except String ContractInfo))
    3 (by decide) (by decide)
  exact h

/-- C10: when the read-only contract calls fail on all three attempts,
`verify_deployment` propagates no error and returns the placeholder
contract info (`Unknown` name, symbol and owner, 18 decimals, total supply
`"0"`), and the record built by `save_deployment_info` from that run
carries exactly this placeholder as its `contract_info`. -/
theorem C10_placeholder_info (calls : Nat → Except String ContractInfo)
    (h : ∀ i, i < 3 → isErrB (calls i) = true) :
    verify_deployment calls = placeholderInfo ∧
    ∀ deployer rcpt va,
      (save_record deployer rcpt.contractAddress rcpt (verify_deployment calls)
        va).contract_info = placeholderInfo := by
  have h03 := retryGo_allErr calls 3 0 (by omega) (fun i _ hi => h i (by omega))
  have hvd : verify_deployment calls = placeholderInfo := by
    simp [verify_deployment, retryLoop, h03]
  exact ⟨hvd, fun deployer rcpt va => by simp [save_record, hvd]⟩

/-- C10 witness: a concrete always-failing call source yields the
placeholder, which is what is persisted. -/
theorem C10_placeholder_info_witness :
    verify_deployment (fun _ => Except.error "NetworkError") = placeholderInfo ∧
    (save_record "0xD" (Receipt.mk 1 "0xC" 21000 100 "0xT").contractAddress
        (Receipt.mk 1 "0xC" 21000 100 "0xT")
        (verify_deployment (fun _ => Except.error "NetworkError"))
        true).contract_info = placeholderInfo := by
  have h := C10_placeholder_info (fun _ => Except.error "NetworkError") (by decide)
  exact ⟨h.1, h.2 "0xD" (Receipt.mk 1 "0xC" 21000 100 "0xT") true⟩

/-- C3 counterexample: `save_deployment_info` is not an atomic replace.
Its operation list opens `deployment_result.json` directly for truncating
write and contains no rename; starting from a store holding an old record,
the state after the first operation maps the file to the empty string —
neither the old record nor the new one, i.e. a partially written
intermediate state, which the claim says never exists. -/
theorem C3_counterexample :
    isAtomicReplace
      (save_deployment_ops
        (save_record "0xD" "0xC" (Receipt.mk 1 "0xC" 21000 100 "0xT") placeholderInfo true)
        "SRC") "deployment_result.json" = false ∧
    runOps
      ((save_deployment_ops
        (save_record "0xD" "0xC" (Receipt.mk 1 "0xC" 21000 100 "0xT") placeholderInfo true)
        "SRC").take 1)
      (fun q => if q = "deployment_result.json" then some "OLD" else none)
      "deployment_result.json" = some "" ∧
    (some "" : Option String) ≠ some "OLD" ∧
    ("" : String) ≠ renderRecord
      (save_record "0xD" "0xC" (Receipt.mk 1 "0xC" 21000 100 "0xT") placeholderInfo true) := by
  refine ⟨rfl, rfl, by decide, by decide⟩

/-- C3 (amended): re-running persistence overwrites in place — for every
prior store state the final content of `deployment_result.json` is exactly
the new record's serialization (truncating write, no append), and likewise
for the source file — but the write is a direct open-and-write on the final
path: no append mode, no rename, and in particular not an atomic
write-temp-then-rename, so a crash mid-write can leave a partial file. -/
theorem C3_save_overwrite_direct (r : Record) (source : String)
    (st : String → Option String) :
    runOps (save_deployment_ops r source) st "deployment_result.json" =
      some (renderRecord r) ∧
    runOps (save_deployment_ops r source) st "verification_source.sol" = some source ∧
    (save_deployment_ops r source).all (fun op => !(isAppendB op)) = true ∧
    (save_deployment_ops r source).all (fun op => !(isRenameB op)) = true ∧
    isAtomicReplace (save_deployment_ops r source) "deployment_result.json" = false := by
  simp only [save_deployment_ops]
  exact save_ops_spec (renderRecord r) source st

/-- C1 counterexample: a run whose broadcast yielded a transaction hash but
whose confirmation times out persists nothing and exits 1 — the
confirmation timeout aborts the pipeline instead of producing a persisted
record, contradicting the claim. -/
theorem C1_counterexample :
    (awaitConfirmation confirmTimeout pollInterval (fun _ => ReceiptFetch.absent)).1 =
      ConfirmResult.timedOut ∧
    mainRun "0xD" (fun _ => ReceiptFetch.absent) (fun _ => Except.ok placeholderInfo)
        "" SubmitFetch.err (fun _ => StatusFetch.err) =
      { saved := none, exitCode := 1, verifRan := false, submitCalls := 0,
        statusCalls := 0 } :=
  ⟨rfl, rfl⟩

/-- C1 (amended): past the broadcast point the script persists a record
only on the confirmation success path: when confirmation succeeds, the run
completes with exit code 0 and persists a record capturing the
contract-info check's result and the verification outcome (so verification
failures are indeed captured, not fatal); but a confirmation timeout or a
revert raises, `main` exits 1, and no record is persisted. -/
theorem C1_record_persistence (deployer apiKey : String) (src : Nat → ReceiptFetch)
    (calls : Nat → Except String ContractInfo) (submit : SubmitFetch)
    (stSrc : Nat → StatusFetch) :
    (∀ rcpt n,
      awaitConfirmation confirmTimeout pollInterval src = (ConfirmResult.confirmed rcpt, n) →
      mainRun deployer src calls apiKey submit stSrc =
        { saved := some (save_record deployer rcpt.contractAddress rcpt
            (verify_deployment calls) (verify_on_bscscan apiKey submit stSrc).returnValue),
          exitCode := 0, verifRan := true,
          submitCalls := (verify_on_bscscan apiKey submit stSrc).submitCalls,
          statusCalls := (verify_on_bscscan apiKey submit stSrc).statusCalls }) ∧
    (((awaitConfirmation confirmTimeout pollInterval src).1 = ConfirmResult.reverted ∨
      (awaitConfirmation confirmTimeout pollInterval src).1 = ConfirmResult.timedOut) →
      mainRun deployer src calls apiKey submit stSrc =
        { saved := none, exitCode := 1, verifRan := false, submitCalls := 0,
          statusCalls := 0 }) := by
  constructor
  · intro rcpt n hconf
    simp [mainRun, hconf]
  · intro hfail
    rcases hp : awaitConfirmation confirmTimeout pollInterval src with ⟨res, m⟩
    rw [hp] at hfail
    simp only at hfail
    cases res with
    | confirmed r => rcases hfail with h | h <;> simp at h
    | reverted => simp [mainRun, hp]
    | timedOut => simp [mainRun, hp]

/-- C1 witness: a run that confirms on the first poll persists the record
built from the placeholder-free pipeline results and exits 0. -/
theorem C1_record_persistence_witness :
    mainRun "0xD" (fun _ => ReceiptFetch.ok ⟨1, "0xC", 21000, 100, "0xT"⟩)
        (fun _ => Except.ok placeholderInfo) "" SubmitFetch.err (fun _ => StatusFetch.err) =
      { saved := some (save_record "0xD" "0xC" ⟨1, "0xC", 21000, 100, "0xT"⟩
          placeholderInfo false),
        exitCode := 0, verifRan := true, submitCalls := 0, statusCalls := 0 } := by
  have h := (C1_record_persistence "0xD" ""
    (fun _ => ReceiptFetch.ok ⟨1, "0xC", 21000, 100, "0xT"⟩)
    (fun _ => Except.ok placeholderInfo) SubmitFetch.err (fun _ => StatusFetch.err)).1
    ⟨1, "0xC", 21000, 100, "0xT"⟩ 1 rfl
  exact h

/-- C2: when the confirmation wait ends reverted or timed out, the
verification poller never runs: `verify_on_bscscan` is not reached and zero
verification HTTP calls (submission or status) are made in that run. -/
theorem C2_short_circuit (deployer apiKey : String) (src : Nat → ReceiptFetch)
    (calls : Nat → Except String ContractInfo) (submit : SubmitFetch)
    (stSrc : Nat → StatusFetch)
    (h : (awaitConfirmation confirmTimeout pollInterval src).1 = ConfirmResult.reverted ∨
      (awaitConfirmation confirmTimeout pollInterval src).1 = ConfirmResult.timedOut) :
    (mainRun deployer src calls apiKey submit stSrc).verifRan = false ∧
    (mainRun deployer src calls apiKey submit stSrc).submitCalls = 0 ∧
    (mainRun deployer src calls apiKey submit stSrc).statusCalls = 0 := by
  rcases hp : awaitConfirmation confirmTimeout pollInterval src with ⟨res, m⟩
  rw [hp] at h
  simp only at h
  cases res with
  | confirmed r => rcases h with h2 | h2 <;> simp at h2
  | reverted => simp [mainRun, hp]
  | timedOut => simp [mainRun, hp]

/-- C2 witness: a first-poll revert makes zero verification calls. -/
theorem C2_short_circuit_witness :
    (mainRun "0xD" (fun _ => ReceiptFetch.ok ⟨0, "0xC", 21000, 100, "0xT"⟩)
      (fun _ => Except.ok placeholderInfo) "KEY" (SubmitFetch.reply "1" "guid" "OK")
      (fun _ => StatusFetch.reply "1" "Pass")).verifRan = false ∧
    (mainRun "0xD" (fun _ => ReceiptFetch.ok ⟨0, "0xC", 21000, 100, "0xT"⟩)
      (fun _ => Except.ok placeholderInfo) "KEY" (SubmitFetch.reply "1" "guid" "OK")
      (fun _ => StatusFetch.reply "1" "Pass")).submitCalls = 0 ∧
    (mainRun "0xD" (fun _ => ReceiptFetch.ok ⟨0, "0xC", 21000, 100, "0xT"⟩)
      (fun _ => Except.ok placeholderInfo) "KEY" (SubmitFetch.reply "1" "guid" "OK")
      (fun _ => StatusFetch.reply "1" "Pass")).statusCalls = 0 :=
  C2_short_circuit "0xD" "KEY" (fun _ => ReceiptFetch.ok ⟨0, "0xC", 21000, 100, "0xT"⟩)
    (fun _ => Except.ok placeholderInfo) (SubmitFetch.reply "1" "guid" "OK")
    (fun _ => StatusFetch.reply "1" "Pass") (Or.inl rfl)

end Deploy
